import Mathlib

/-!
# Verification of the Climate-Predict forecast-resolution pipeline

Shallow embedding of the core of `climate_ai_app_enhanced.py`:

* the tiered model resolver (`load_s3_models`, `load_local_model`,
  `load_location_model`),
* the feature builder (`create_weather_features`),
* the model-based forecast (`predict_weather_location`),
* the synthetic fallback generator (`generate_realistic_weather_fallback`),
* the climate table (`get_city_climate_info`) and the risk classifier
  (the threshold selection and per-hazard logic of
  `show_enhanced_disaster_risk`).

Modelling conventions:

* Python floats are modelled as `ℚ`; `np.sin`, `np.cos` and `np.pi` are
  opaque to the program, so they are passed as parameters
  (`sinq cosq : ℚ → ℚ`, `piq : ℚ`).
* Calendar dates are modelled as an absolute day index `ℕ`
  (`datetime.now() + timedelta(days=i)` becomes `today + i`); the
  month/day/weekday/day-of-year fields a date exposes are recovered through a
  calendar parameter `cal : ℕ → DateParts`.  The `strftime`/`strptime`
  round-trip in the source is the identity on the day index.
* Fitted regressors and scalers are opaque loaded artifacts; where prediction
  is performed they are functions on feature rows
  (`Reg = List ℚ → ℚ`, `Scaler = List ℚ → List ℚ`).
* Python `try`/`except` is modelled with `Except`: the protected body is a
  value of `Except Unit α` and the handler pattern-matches on it.
* `np.random.normal` draws are supplied as explicit noise streams; the
  process-wide RNG available to every function is passed as a parameter so
  that (in)dependence on it is expressible.
* `round(x, 1)` (Python bankers rounding to one decimal) is `round1`.
-/

set_option autoImplicit false

/-- The four prediction targets, in the iteration order used by both loader
loops (`for target in ['temperature', 'humidity', 'pressure', 'wind_speed']`). -/
inductive Target where
  | temperature
  | humidity
  | pressure
  | wind_speed
deriving DecidableEq, Fintype

/-- Loop order of the Python target lists. -/
def Target.all : List Target :=
  [.temperature, .humidity, .pressure, .wind_speed]

/-- A Python dict keyed by target (`models` / `scalers` in the source). -/
def TargetMap (α : Type) : Type := Target → Option α

/-- The empty dict `{}`. -/
def tmEmpty {α : Type} : TargetMap α := fun _ => none

/-- Dict assignment `m[t] = a`. -/
def tmSet {α : Type} (m : TargetMap α) (t : Target) (a : α) : TargetMap α :=
  fun u => if u = t then some a else m u

/-- Python truthiness test `not m` for a dict keyed by targets. -/
def tmIsEmpty {α : Type} (m : TargetMap α) : Bool :=
  Target.all.all fun t => (m t).isNone

/-- The dict returned by `load_s3_models` / `load_local_model`:
`{'models': …, 'scalers': …, 'model_info': …, 'city': …}`.  The artifact and
metadata types are opaque parameters. -/
structure ModelData (Info Reg Scaler : Type) where
  models : TargetMap Reg
  scalers : TargetMap Scaler
  model_info : Info
  city : String

/-- Outcome of one `s3_client.get_object` + deserialization of an S3 object:
either the loaded artifact, a `NoSuchKey` exception (handled per target), or
any other exception (handled only by the function-level `except`). -/
inductive S3Fetch (α : Type) where
  | ok (a : α)
  | noSuchKey
  | otherErr

/-- The remote store as seen by `load_s3_models`, indexed by the objects the
function addresses (the metadata document and, per target, the
`{target}_rf.joblib` and `{target}_scaler.joblib` keys under the city prefix). -/
structure S3Store (Info Reg Scaler : Type) where
  info : S3Fetch Info
  model : Target → S3Fetch Reg
  scaler : Target → S3Fetch Scaler

/-- The local filesystem as seen by `load_local_model`: existence of the
model directory, of the metadata file and of each per-target artifact file,
plus the outcome of deserializing each (which may raise). -/
structure LocalStore (Info Reg Scaler : Type) where
  dirExists : Bool
  infoExists : Bool
  infoLoad : Except Unit Info
  modelExists : Target → Bool
  scalerExists : Target → Bool
  modelLoad : Target → Except Unit Reg
  scalerLoad : Target → Except Unit Scaler

/-- The per-target loop of `load_s3_models` (source lines 189–208).  The
regressor is fetched and **assigned into `models` first**; only then is the
scaler fetched, and a `NoSuchKey` on either fetch runs `continue`.  Any other
exception propagates (`Except.error`) to the function-level handler. -/
def s3LoadTargets {Info Reg Scaler : Type} (st : S3Store Info Reg Scaler) :
    Except Unit (TargetMap Reg × TargetMap Scaler) :=
  Target.all.foldlM
    (fun acc t =>
      match st.model t with
      | .noSuchKey => .ok acc
      | .otherErr => .error ()
      | .ok r =>
        let acc1 : TargetMap Reg × TargetMap Scaler := (tmSet acc.1 t r, acc.2)
        match st.scaler t with
        | .noSuchKey => .ok acc1
        | .otherErr => .error ()
        | .ok s => .ok (acc1.1, tmSet acc1.2 t s))
    (tmEmpty, tmEmpty)

/-- `load_s3_models` (source lines 166–227): fetch the metadata document
(`NoSuchKey` returns `None`), run the per-target loop, return `None` when the
`models` dict is empty, and catch every other exception as `None`. -/
def load_s3_models {Info Reg Scaler : Type} (city : String)
    (st : S3Store Info Reg Scaler) : Option (ModelData Info Reg Scaler) :=
  match st.info with
  | .otherErr => none
  | .noSuchKey => none
  | .ok info =>
    match s3LoadTargets st with
    | .error _ => none
    | .ok (ms, ss) =>
      if tmIsEmpty ms then none
      else some { models := ms, scalers := ss, model_info := info, city := city }

/-- The per-target loop of `load_local_model` (source lines 112–121): a
target is loaded only when **both** artifact files exist; deserialization
failures propagate to the function-level handler. -/
def localLoadTargets {Info Reg Scaler : Type} (st : LocalStore Info Reg Scaler) :
    Except Unit (TargetMap Reg × TargetMap Scaler) :=
  Target.all.foldlM
    (fun acc t =>
      if st.modelExists t && st.scalerExists t then
        match st.modelLoad t with
        | .error e => .error e
        | .ok r =>
          match st.scalerLoad t with
          | .error e => .error e
          | .ok s => .ok (tmSet acc.1 t r, tmSet acc.2 t s)
      else .ok acc)
    (tmEmpty, tmEmpty)

/-- `load_local_model` (source lines 85–140): directory and metadata-file
absence return `None`, the metadata is deserialized (failure caught as
`None`), the per-target loop runs, an empty `models` dict returns `None`,
and every exception is caught as `None`. -/
def load_local_model {Info Reg Scaler : Type} (city : String)
    (st : LocalStore Info Reg Scaler) : Option (ModelData Info Reg Scaler) :=
  if !st.dirExists then none
  else if !st.infoExists then none
  else
    match st.infoLoad with
    | .error _ => none
    | .ok info =>
      match localLoadTargets st with
      | .error _ => none
      | .ok (ms, ss) =>
        if tmIsEmpty ms then none
        else some { models := ms, scalers := ss, model_info := info, city := city }

/-- `load_location_model` (source lines 142–164): S3 tier first, local tier
only when the S3 tier returned `None`.  Both tiers already catch their own
exceptions, so the surrounding `try` has nothing left to catch. -/
def load_location_model {Info Reg Scaler : Type} (city : String)
    (s3 : S3Store Info Reg Scaler) (loc : LocalStore Info Reg Scaler) :
    Option (ModelData Info Reg Scaler) :=
  match load_s3_models city s3 with
  | some b => some b
  | none => load_local_model city loc

/-- Python `str.lower()` (the climate-type strings are ASCII). -/
def strLower (s : String) : String :=
  String.mk (s.toList.map Char.toLower)

/-- `leadsWith pat l` holds when `pat` occurs at the front of `l`. -/
def leadsWith : List Char → List Char → Bool
  | [], _ => true
  | _ :: _, [] => false
  | a :: pat, b :: l => a == b && leadsWith pat l

/-- `hasSub pat l` holds when `pat` occurs contiguously somewhere in `l`. -/
def hasSub (pat : List Char) : List Char → Bool
  | [] => pat.isEmpty
  | c :: l => leadsWith pat (c :: l) || hasSub pat l

/-- Python substring test `pat in hay`. -/
def strContains (hay pat : String) : Bool :=
  hasSub pat.toList hay.toList

/-- The numeric climate baseline of one `get_city_climate_info` entry.  The
purely presentational string fields of the source dict (`temp_range`,
`monsoon_season`, `humidity_range`, `wind_patterns`, `special_features`) are
not consumed by any prediction, generation or risk computation and are
omitted. -/
structure ClimateInfo where
  avg_temp : ℚ
  avg_humidity : ℚ
  avg_pressure : ℚ
  cloud_cover : ℚ
  visibility : ℚ
  wind_direction : ℚ
  wind_speed : ℚ
  latitude : ℚ
  longitude : ℚ
  climate_type : String
deriving DecidableEq

/-- The `"default"` entry of the `climate_data` dict (source lines 2111–2118). -/
def climateDefault : ClimateInfo :=
  { avg_temp := 25.0, avg_humidity := 65, avg_pressure := 1013.25
  , cloud_cover := 40, visibility := 10, wind_direction := 180
  , wind_speed := 5.0, latitude := 28.6139, longitude := 77.2090
  , climate_type := "Tropical Monsoon" }

/-- The `climate_data` dict of `get_city_climate_info`
(source lines 1965–2119), in source order. -/
def climate_data : List (String × ClimateInfo) :=
  [ ("new_delhi",
     { avg_temp := 25.0, avg_humidity := 65, avg_pressure := 1013.25
     , cloud_cover := 40, visibility := 10, wind_direction := 180
     , wind_speed := 5.0, latitude := 28.6139, longitude := 77.2090
     , climate_type := "Tropical Monsoon" })
  , ("noida",
     { avg_temp := 26.0, avg_humidity := 68, avg_pressure := 1012.5
     , cloud_cover := 45, visibility := 11, wind_direction := 185
     , wind_speed := 6.5, latitude := 28.5355, longitude := 77.3910
     , climate_type := "Tropical Monsoon" })
  , ("mumbai",
     { avg_temp := 27.0, avg_humidity := 75, avg_pressure := 1012.0
     , cloud_cover := 60, visibility := 8, wind_direction := 225
     , wind_speed := 8.0, latitude := 19.0760, longitude := 72.8777
     , climate_type := "Tropical Wet and Dry" })
  , ("bangalore",
     { avg_temp := 23.0, avg_humidity := 70, avg_pressure := 1014.0
     , cloud_cover := 50, visibility := 12, wind_direction := 270
     , wind_speed := 6.0, latitude := 12.9716, longitude := 77.5946
     , climate_type := "Temperate" })
  , ("kolkata",
     { avg_temp := 26.0, avg_humidity := 80, avg_pressure := 1011.0
     , cloud_cover := 70, visibility := 6, wind_direction := 135
     , wind_speed := 7.0, latitude := 22.5726, longitude := 88.3639
     , climate_type := "Tropical Monsoon" })
  , ("chennai",
     { avg_temp := 28.0, avg_humidity := 75, avg_pressure := 1010.0
     , cloud_cover := 55, visibility := 9, wind_direction := 90
     , wind_speed := 9.0, latitude := 13.0827, longitude := 80.2707
     , climate_type := "Tropical Wet and Dry" })
  , ("hyderabad",
     { avg_temp := 26.0, avg_humidity := 65, avg_pressure := 1012.5
     , cloud_cover := 45, visibility := 11, wind_direction := 200
     , wind_speed := 7.5, latitude := 17.3850, longitude := 78.4867
     , climate_type := "Tropical Monsoon" })
  , ("pune",
     { avg_temp := 24.0, avg_humidity := 60, avg_pressure := 1013.5
     , cloud_cover := 40, visibility := 13, wind_direction := 250
     , wind_speed := 6.5, latitude := 18.5204, longitude := 73.8567
     , climate_type := "Temperate" })
  , ("ahmedabad",
     { avg_temp := 26.5, avg_humidity := 55, avg_pressure := 1014.0
     , cloud_cover := 35, visibility := 14, wind_direction := 220
     , wind_speed := 8.5, latitude := 23.0225, longitude := 72.5714
     , climate_type := "Semi-arid" })
  , ("jaipur",
     { avg_temp := 25.5, avg_humidity := 50, avg_pressure := 1013.0
     , cloud_cover := 30, visibility := 15, wind_direction := 240
     , wind_speed := 7.0, latitude := 26.9124, longitude := 75.7873
     , climate_type := "Semi-arid" })
  , ("lucknow",
     { avg_temp := 25.5, avg_humidity := 70, avg_pressure := 1012.0
     , cloud_cover := 50, visibility := 10, wind_direction := 190
     , wind_speed := 6.0, latitude := 26.8467, longitude := 80.9462
     , climate_type := "Tropical Monsoon" })
  , ("kanpur",
     { avg_temp := 26.0, avg_humidity := 72, avg_pressure := 1011.5
     , cloud_cover := 55, visibility := 9, wind_direction := 195
     , wind_speed := 7.2, latitude := 26.4499, longitude := 80.3319
     , climate_type := "Tropical Monsoon" })
  , ("varanasi",
     { avg_temp := 26.5, avg_humidity := 70, avg_pressure := 1011.0
     , cloud_cover := 50, visibility := 10, wind_direction := 200
     , wind_speed := 6.8, latitude := 25.3176, longitude := 82.9739
     , climate_type := "Tropical Monsoon" })
  , ("ghaziabad",
     { avg_temp := 25.8, avg_humidity := 67, avg_pressure := 1012.8
     , cloud_cover := 42, visibility := 11, wind_direction := 182
     , wind_speed := 6.2, latitude := 28.6692, longitude := 77.4538
     , climate_type := "Tropical Monsoon" })
  , ("meerut",
     { avg_temp := 25.2, avg_humidity := 69, avg_pressure := 1013.2
     , cloud_cover := 44, visibility := 10, wind_direction := 188
     , wind_speed := 6.8, latitude := 28.9845, longitude := 77.7064
     , climate_type := "Tropical Monsoon" })
  , ("allahabad",
     { avg_temp := 26.8, avg_humidity := 71, avg_pressure := 1010.8
     , cloud_cover := 52, visibility := 9, wind_direction := 205
     , wind_speed := 7.5, latitude := 25.4358, longitude := 81.8463
     , climate_type := "Tropical Monsoon" })
  , ("agra",
     { avg_temp := 26.2, avg_humidity := 65, avg_pressure := 1012.5
     , cloud_cover := 38, visibility := 12, wind_direction := 210
     , wind_speed := 6.5, latitude := 27.1767, longitude := 78.0081
     , climate_type := "Tropical Monsoon" })
  , ("bareilly",
     { avg_temp := 25.5, avg_humidity := 68, avg_pressure := 1013.0
     , cloud_cover := 45, visibility := 10, wind_direction := 195
     , wind_speed := 6.8, latitude := 28.3670, longitude := 79.4304
     , climate_type := "Tropical Monsoon" })
  , ("default", climateDefault) ]

/-- `get_city_climate_info` (source lines 1963–2121):
`climate_data.get(city, climate_data['default'])`. -/
def get_city_climate_info (city : String) : ClimateInfo :=
  match climate_data.find? (fun p => p.1 == city) with
  | some p => p.2
  | none => climateDefault

/-- The date fields the program reads off a `datetime`:
`date_obj.month`, `date_obj.day`, `date_obj.weekday()`,
`date_obj.timetuple().tm_yday`. -/
structure DateParts where
  month : ℕ
  day : ℕ
  weekday : ℕ
  dayOfYear : ℕ
deriving DecidableEq

/-- One output record of either forecast path
(`{'date': …, 'temperature': …, 'humidity': …, 'pressure': …, 'wind_speed': …}`),
with the date as an absolute day index. -/
structure ForecastDay where
  date : ℕ
  temperature : ℚ
  humidity : ℚ
  pressure : ℚ
  wind_speed : ℚ
deriving DecidableEq

/-- `np.clip(x, lo, hi)`. -/
def clip (x lo hi : ℚ) : ℚ := min (max x lo) hi

/-- Round-half-to-even to an integer, the rounding mode of Python `round`. -/
def roundHalfEven (y : ℚ) : ℤ :=
  let f := Int.floor y
  let r := y - f
  if r < 1 / 2 then f
  else if 1 / 2 < r then f + 1
  else if f % 2 = 0 then f else f + 1

/-- Python `round(x, 1)`. -/
def round1 (x : ℚ) : ℚ := (roundHalfEven (10 * x) : ℚ) / 10

/-- `create_weather_features` (source lines 229–298).  The climate lookup
never raises in this model (`get_city_climate_info` is total), so the
`except` branch of the source — which would substitute temp 25, humidity 65,
pressure 1013, wind 10, cloud 50, visibility 10, direction 180, and the
reference coordinates — is unreachable; those hard-coded values are exactly
the ones used on the `else` branch taken when no (or an empty) city name is
supplied, which is reachable and is modelled.  `climate_type` is unused by
this function; the fallback record carries `""` for it. -/
def create_weather_features (sinq cosq : ℚ → ℚ) (piq : ℚ) (d : DateParts)
    (city_name : Option String) : List ℚ :=
  let doy : ℚ := d.dayOfYear
  let ci : ClimateInfo :=
    match city_name with
    | some c =>
      if c = "" then
        { avg_temp := 25, avg_humidity := 65, avg_pressure := 1013
        , cloud_cover := 50, visibility := 10, wind_direction := 180
        , wind_speed := 10, latitude := 28.6139, longitude := 77.2090
        , climate_type := "" }
      else get_city_climate_info c
    | none =>
      { avg_temp := 25, avg_humidity := 65, avg_pressure := 1013
      , cloud_cover := 50, visibility := 10, wind_direction := 180
      , wind_speed := 10, latitude := 28.6139, longitude := 77.2090
      , climate_type := "" }
  [ (d.month : ℚ)
  , (d.day : ℚ)
  , (d.weekday : ℚ)
  , sinq (2 * piq * doy / 365.25)
  , cosq (2 * piq * doy / 365.25)
  , sinq (4 * piq * doy / 365.25)
  , cosq (4 * piq * doy / 365.25)
  , sinq (2 * piq * 12 / 24)
  , cosq (2 * piq * 12 / 24)
  , ci.avg_temp * ci.avg_humidity / 100
  , ci.avg_pressure / ci.avg_temp
  , ci.cloud_cover
  , ci.visibility
  , ci.wind_direction
  , ci.avg_temp
  , ci.avg_pressure
  , ci.wind_speed
  , doy
  , 12
  , ci.latitude
  , ci.longitude ]

/-- Concrete artifact types where prediction is actually run: a scaler
transforms a feature row, a regressor predicts from the scaled row. -/
abbrev RegQ : Type := List ℚ → ℚ

/-- See `RegQ`. -/
abbrev ScalerQ : Type := List ℚ → List ℚ

/-- The loop body of `predict_weather_location` for one day
(source lines 329–368): each of the four fields is written only when the
target has **both** a regressor in `models` and a scaler in `scalers`,
otherwise it keeps its initial value `0`.  Humidity is clamped to
`[0, 100]` and wind speed to `≥ 0` before rounding; temperature and
pressure are rounded unclamped. -/
def predictDay (models : TargetMap RegQ) (scalers : TargetMap ScalerQ)
    (city : String) (sinq cosq : ℚ → ℚ) (piq : ℚ) (d : DateParts)
    (dateIdx : ℕ) : ForecastDay :=
  let features := create_weather_features sinq cosq piq d (some city)
  { date := dateIdx
  , temperature :=
      match models .temperature, scalers .temperature with
      | some r, some s => round1 (r (s features))
      | _, _ => 0
  , humidity :=
      match models .humidity, scalers .humidity with
      | some r, some s => round1 (max 0 (min 100 (r (s features))))
      | _, _ => 0
  , pressure :=
      match models .pressure, scalers .pressure with
      | some r, some s => round1 (r (s features))
      | _, _ => 0
  , wind_speed :=
      match models .wind_speed, scalers .wind_speed with
      | some r, some s => round1 (max 0 (r (s features)))
      | _, _ => 0 }

/-- `predict_weather_location` (source lines 300–375).  The `_model_data`
argument is typed, so the `None` / missing-key guards on it are statically
satisfied; the remaining guard `if not models or not scalers: return None`
is modelled.  `rng` is the ambient process RNG (`np.random`), which the
source function never consults; it is passed to make that independence a
provable statement. -/
def predict_weather_location {Info : Type} (md : ModelData Info RegQ ScalerQ)
    (days : ℕ) (today : ℕ) (cal : ℕ → DateParts) (sinq cosq : ℚ → ℚ)
    (piq : ℚ) (_rng : ℕ → ℚ) : Option (List ForecastDay) :=
  if tmIsEmpty md.models || tmIsEmpty md.scalers then none
  else
    some ((List.range days).map fun i =>
      predictDay md.models md.scalers md.city sinq cosq piq
        (cal (today + i)) (today + i))

/-- The four `np.random.normal` streams drawn by
`generate_realistic_weather_fallback`, one value per day offset
(σ = 2, 5, 3, 2 for temperature, humidity, pressure, wind). -/
structure NoiseDraws where
  temp : ℕ → ℚ
  humidity : ℕ → ℚ
  pressure : ℕ → ℚ
  wind : ℕ → ℚ

/-- The loop body of `generate_realistic_weather_fallback` for one day
(source lines 388–433): seasonal swing, additive noise, then the
climate-classification clamps (tropical / arid / temperate, in that order),
then the global clamps and rounding. -/
def genDay (ci : ClimateInfo) (sinq : ℚ → ℚ) (piq : ℚ) (d : DateParts)
    (dateIdx : ℕ) (nTemp nHum nPres nWind : ℚ) : ForecastDay :=
  let doy : ℚ := d.dayOfYear
  let seasonal_factor := sinq (2 * piq * doy / 365.25)
  let daily_temp := ci.avg_temp + 8 * seasonal_factor + nTemp
  let daily_humidity := ci.avg_humidity + (-10) * seasonal_factor + nHum
  let daily_pressure := ci.avg_pressure + nPres
  let daily_wind := ci.wind_speed + nWind
  let ct := strLower ci.climate_type
  let th : ℚ × ℚ :=
    if strContains ct "tropical" then
      (clip daily_temp 22 38, max daily_humidity 60)
    else if strContains ct "arid" then
      (clip daily_temp 25 45, min daily_humidity 50)
    else if strContains ct "temperate" then
      (clip daily_temp 15 35, clip daily_humidity 40 80)
    else (daily_temp, daily_humidity)
  { date := dateIdx
  , temperature := round1 (clip th.1 15 45)
  , humidity := round1 (clip th.2 20 95)
  , pressure := round1 (clip daily_pressure 980 1020)
  , wind_speed := round1 (clip daily_wind 0 20) }

/-- `generate_realistic_weather_fallback` (source lines 377–440).  Nothing
in the loop can raise in this model, so the function-level `except` branch
(returning `None`) is unreachable and the result is the plain list. -/
def generate_realistic_weather_fallback (city : String) (days today : ℕ)
    (cal : ℕ → DateParts) (sinq : ℚ → ℚ) (piq : ℚ) (noise : NoiseDraws) :
    List ForecastDay :=
  let ci := get_city_climate_info city
  (List.range days).map fun i =>
    genDay ci sinq piq (cal (today + i)) (today + i)
      (noise.temp i) (noise.humidity i) (noise.pressure i) (noise.wind i)

/-- Risk severity levels. -/
inductive Risk where
  | LOW
  | MEDIUM
  | HIGH
deriving DecidableEq

/-- The per-climate threshold table of `show_enhanced_disaster_risk`
(source lines 1396–1436). -/
structure Thresholds where
  heatwave_high : ℚ
  heatwave_medium : ℚ
  drought_low : ℚ
  drought_medium : ℚ
  flood_high : ℚ
  flood_medium : ℚ
  storm_high : ℚ
  storm_medium : ℚ
deriving DecidableEq

/-- Threshold selection by climate type (source lines 1397–1436): the
branches test `'tropical'`, `'temperate'`, `'arid'` as substrings of the
lowercased climate type, in that order, with a default table. -/
def riskThresholds (climate_type : String) : Thresholds :=
  let ct := strLower climate_type
  if strContains ct "tropical" then
    ⟨38, 33, 60, 50, 90, 80, 25, 18⟩
  else if strContains ct "temperate" then
    ⟨40, 35, 45, 35, 85, 75, 20, 15⟩
  else if strContains ct "arid" then
    ⟨42, 37, 30, 20, 80, 70, 22, 16⟩
  else
    ⟨40, 35, 40, 30, 85, 75, 20, 15⟩

/-- `sum(f(day) for day in w) / len(w)` over the 7-day window. -/
def avgOf (f : ForecastDay → ℚ) (w : List ForecastDay) : ℚ :=
  (w.map f).sum / (w.length : ℚ)

/-- Python `max(f(day) for day in w)` (the source only calls it on the
nonempty 7-day window; on `[]` Python would raise). -/
def maxOf (f : ForecastDay → ℚ) : List ForecastDay → ℚ
  | [] => 0
  | d :: w => w.foldl (fun m x => max m (f x)) (f d)

/-- The risk levels computed by `show_enhanced_disaster_risk`. -/
structure RiskAssessment where
  heatwave : Risk
  drought : Risk
  storm : Risk
  flood : Risk
deriving DecidableEq

/-- The risk computation of `show_enhanced_disaster_risk`
(source lines 1384–1471) over the trailing 7-day window: the 7-day
averages/maxima, threshold selection by climate type, and the four
per-hazard ladders. -/
def assessRisks (w : List ForecastDay) (climate_type : String) :
    RiskAssessment :=
  let avg_temp_7d := avgOf (fun d => d.temperature) w
  let avg_humidity_7d := avgOf (fun d => d.humidity) w
  let max_temp_7d := maxOf (fun d => d.temperature) w
  let max_wind_7d := maxOf (fun d => d.wind_speed) w
  let th := riskThresholds climate_type
  { heatwave :=
      if max_temp_7d > th.heatwave_high ∨ avg_temp_7d > th.heatwave_high - 2 then .HIGH
      else if max_temp_7d > th.heatwave_medium ∨ avg_temp_7d > th.heatwave_medium - 2 then .MEDIUM
      else .LOW
  , drought :=
      if avg_humidity_7d < th.drought_low then .HIGH
      else if avg_humidity_7d < th.drought_medium then .MEDIUM
      else .LOW
  , storm :=
      if max_wind_7d > th.storm_high then .HIGH
      else if max_wind_7d > th.storm_medium then .MEDIUM
      else .LOW
  , flood :=
      if avg_humidity_7d > th.flood_high then .HIGH
      else if avg_humidity_7d > th.flood_medium then .MEDIUM
      else .LOW }

/-! ## Helper lemmas about rounding and clamping -/

theorem roundHalfEven_ge_floor (y : ℚ) : Int.floor y ≤ roundHalfEven y := by
  unfold roundHalfEven
  dsimp only
  split_ifs <;> omega

theorem roundHalfEven_le_floor_add_one (y : ℚ) :
    roundHalfEven y ≤ Int.floor y + 1 := by
  unfold roundHalfEven
  dsimp only
  split_ifs <;> omega

theorem intCast_le_round1 (n : ℤ) (x : ℚ) (h : (n : ℚ) ≤ x) :
    (n : ℚ) ≤ round1 x := by
  have h10 : ((10 * n : ℤ) : ℚ) ≤ 10 * x := by push_cast; linarith
  have hf : 10 * n ≤ Int.floor (10 * x) := Int.le_floor.mpr h10
  have hr : 10 * n ≤ roundHalfEven (10 * x) :=
    le_trans hf (roundHalfEven_ge_floor _)
  have hq : ((10 * n : ℤ) : ℚ) ≤ (roundHalfEven (10 * x) : ℚ) := by
    exact_mod_cast hr
  unfold round1
  push_cast at hq ⊢
  linarith

theorem round1_le_intCast (n : ℤ) (x : ℚ) (h : x ≤ (n : ℚ)) :
    round1 x ≤ (n : ℚ) := by
  have h10 : 10 * x ≤ ((10 * n : ℤ) : ℚ) := by push_cast; linarith
  have hfle : Int.floor (10 * x) ≤ 10 * n := by
    have h2 := Int.floor_le_floor h10
    rw [Int.floor_intCast] at h2
    exact h2
  rcases lt_or_eq_of_le hfle with hlt | heq
  · have hr : roundHalfEven (10 * x) ≤ 10 * n :=
      le_trans (roundHalfEven_le_floor_add_one _) (by omega)
    have hq : (roundHalfEven (10 * x) : ℚ) ≤ ((10 * n : ℤ) : ℚ) := by
      exact_mod_cast hr
    unfold round1
    push_cast at hq ⊢
    linarith
  · have hxeq : 10 * x = ((10 * n : ℤ) : ℚ) := by
      have hle : ((10 * n : ℤ) : ℚ) ≤ 10 * x := by
        calc ((10 * n : ℤ) : ℚ) = ((Int.floor (10 * x) : ℤ) : ℚ) := by
              rw [heq]
          _ ≤ 10 * x := Int.floor_le _
      linarith
    have hr : roundHalfEven (10 * x) = 10 * n := by
      unfold roundHalfEven
      rw [hxeq]
      rw [Int.floor_intCast]
      simp
    unfold round1
    rw [hr]
    push_cast
    linarith

theorem le_clip (x lo hi c : ℚ) (hx : c ≤ x) (hhi : c ≤ hi) :
    c ≤ clip x lo hi := by
  unfold clip
  exact le_min (le_trans hx (le_max_left _ _)) hhi

theorem clip_le (x lo hi : ℚ) : clip x lo hi ≤ hi := by
  unfold clip
  exact min_le_right _ _

theorem clip_ge_lo (x lo hi : ℚ) (h : lo ≤ hi) : lo ≤ clip x lo hi := by
  unfold clip
  exact le_min (le_max_right _ _) h

/-! ## Concrete stores and fixtures used by the claim theorems -/

/-- A remote store holding the metadata document and the temperature
regressor object, but whose temperature scaler object (and every other
artifact) is missing (`NoSuchKey`). -/
def s3PartialStore : S3Store Unit Unit Unit :=
  { info := .ok ()
  , model := fun t => if t = .temperature then .ok () else .noSuchKey
  , scaler := fun _ => .noSuchKey }

/-- Like `s3PartialStore`, with the humidity regressor as the one present
artifact. -/
def s3PartialStoreH : S3Store Unit Unit Unit :=
  { info := .ok ()
  , model := fun t => if t = .humidity then .ok () else .noSuchKey
  , scaler := fun _ => .noSuchKey }

/-- A local tier with no model directory at all. -/
def localAbsentStore : LocalStore Unit Unit Unit :=
  { dirExists := false, infoExists := false, infoLoad := .error ()
  , modelExists := fun _ => false, scalerExists := fun _ => false
  , modelLoad := fun _ => .error (), scalerLoad := fun _ => .error () }

/-- A remote store where every fetch succeeds. -/
def s3AllOkStore : S3Store Unit Unit Unit :=
  ⟨.ok (), fun _ => .ok (), fun _ => .ok ()⟩

/-- A remote store whose metadata document is missing. -/
def s3InfoMissingStore : S3Store Unit Unit Unit :=
  ⟨.noSuchKey, fun _ => .ok (), fun _ => .ok ()⟩

/-- A remote store whose metadata fetch raises a non-`NoSuchKey` exception. -/
def s3InfoErrStore : S3Store Unit Unit Unit :=
  ⟨.otherErr, fun _ => .ok (), fun _ => .ok ()⟩

/-- A remote store whose artifact fetches raise non-`NoSuchKey` exceptions. -/
def s3TargetsErrStore : S3Store Unit Unit Unit :=
  ⟨.ok (), fun _ => .otherErr, fun _ => .noSuchKey⟩

/-- A local tier whose metadata deserialization raises. -/
def localInfoErrStore : LocalStore Unit Unit Unit :=
  ⟨true, true, .error (), fun _ => true, fun _ => true,
   fun _ => .ok (), fun _ => .ok ()⟩

/-- A local tier whose artifact deserializations raise. -/
def localTargetsErrStore : LocalStore Unit Unit Unit :=
  ⟨true, true, .ok (), fun _ => true, fun _ => true,
   fun _ => .error (), fun _ => .ok ()⟩

/-! ## Claim theorems -/

/-- C1: the claim says a target's regressor appears in the returned bundle
only if its scaler also loaded, in both tiers.  The S3 tier violates this:
the regressor is assigned into `models` before the scaler fetch, so a store
whose temperature regressor object exists while its scaler object is missing
yields a returned bundle with a regressor-without-scaler entry.  This theorem
evaluates the S3 loader at that failing input. -/
theorem C1_s3_regressor_without_scaler :
    ∃ md : ModelData Unit Unit Unit,
      load_s3_models "new_delhi" s3PartialStore = some md ∧
      md.models .temperature = some () ∧
      md.scalers .temperature = none :=
  ⟨_, rfl, rfl, rfl⟩

/-- C2: the claim says every bundle handed to a caller contains at least one
target, where (per the spec's data model) a target is present only when both
its regressor and its scaler loaded.  Because of the same S3 slip as in C1,
full resolution can return a bundle containing a regressor entry but zero
regressor+scaler pairs: this theorem evaluates `load_location_model` at such
an input. -/
theorem C2_bundle_with_zero_paired_targets :
    ∃ md : ModelData Unit Unit Unit,
      load_location_model "mumbai" s3PartialStoreH localAbsentStore = some md ∧
      ∀ t : Target, ¬((md.models t).isSome = true ∧ (md.scalers t).isSome = true) := by
  refine ⟨_, rfl, ?_⟩
  decide

/-- C8: bundle resolution tries the S3 tier first and consults the local tier
only when the S3 tier yields `None`; exceptions inside either tier (metadata
fetch, artifact fetch, deserialization) are caught and become that tier's
`None`, so resolution itself returns an `Option` and never propagates an
exception. -/
theorem C8_two_tier_resolution_order (Info Reg Scaler : Type) (city : String)
    (s3 : S3Store Info Reg Scaler) (loc : LocalStore Info Reg Scaler) :
    ((load_s3_models city s3).isSome = true →
      load_location_model city s3 loc = load_s3_models city s3) ∧
    (load_s3_models city s3 = none →
      load_location_model city s3 loc = load_local_model city loc) ∧
    (s3.info = .otherErr → load_s3_models city s3 = none) ∧
    (∀ i : Info, s3.info = .ok i → s3LoadTargets s3 = .error () →
      load_s3_models city s3 = none) ∧
    (loc.infoLoad = .error () → load_local_model city loc = none) ∧
    (∀ i : Info, loc.infoLoad = .ok i → localLoadTargets loc = .error () →
      load_local_model city loc = none) := by
  refine ⟨?_, ?_, ?_, ?_, ?_, ?_⟩
  · intro h
    unfold load_location_model
    cases hs : load_s3_models city s3 with
    | none => rw [hs] at h; simp at h
    | some b => rfl
  · intro h
    unfold load_location_model
    rw [h]
  · intro h
    unfold load_s3_models
    rw [h]
  · intro i hi ht
    unfold load_s3_models
    rw [hi, ht]
  · intro h
    unfold load_local_model
    rw [h]
    split_ifs <;> rfl
  · intro i hi ht
    unfold load_local_model
    rw [hi, ht]
    split_ifs <;> rfl

/-- Witness for C8: each hypothesis of `C8_two_tier_resolution_order`
discharged at a concrete store. -/
theorem C8_two_tier_resolution_order_witness :
    (load_location_model "x" s3AllOkStore localInfoErrStore =
      load_s3_models "x" s3AllOkStore) ∧
    (load_location_model "x" s3InfoMissingStore localInfoErrStore =
      load_local_model "x" localInfoErrStore) ∧
    load_s3_models "x" s3InfoErrStore = none ∧
    load_s3_models "x" s3TargetsErrStore = none ∧
    load_local_model "x" localInfoErrStore = none ∧
    load_local_model "x" localTargetsErrStore = none :=
  ⟨(C8_two_tier_resolution_order Unit Unit Unit "x" s3AllOkStore
      localInfoErrStore).1 (by decide)
  , (C8_two_tier_resolution_order Unit Unit Unit "x" s3InfoMissingStore
      localInfoErrStore).2.1 rfl
  , (C8_two_tier_resolution_order Unit Unit Unit "x" s3InfoErrStore
      localInfoErrStore).2.2.1 rfl
  , (C8_two_tier_resolution_order Unit Unit Unit "x" s3TargetsErrStore
      localInfoErrStore).2.2.2.1 () rfl rfl
  , (C8_two_tier_resolution_order Unit Unit Unit "x" s3AllOkStore
      localInfoErrStore).2.2.2.2.1 rfl
  , (C8_two_tier_resolution_order Unit Unit Unit "x" s3AllOkStore
      localTargetsErrStore).2.2.2.2.2 () rfl rfl ⟩

/-- C3: for a 7-day window classified under the arid threshold table
(heatwave_high = 42, heatwave_medium = 37), the heatwave risk is HIGH exactly
when max temperature > 42 or average temperature > 40, else MEDIUM exactly
when max > 37 or average > 35, else LOW; in particular a window with maximum
temperature 43 is HIGH. -/
theorem C3_arid_heatwave_ladder (w : List ForecastDay) (ct : String)
    (_hlen : w.length = 7)
    (htrop : strContains (strLower ct) "tropical" = false)
    (htemp : strContains (strLower ct) "temperate" = false)
    (harid : strContains (strLower ct) "arid" = true) :
    ((assessRisks w ct).heatwave = .HIGH ↔
      maxOf (fun d => d.temperature) w > 42 ∨ avgOf (fun d => d.temperature) w > 40) ∧
    ((assessRisks w ct).heatwave = .MEDIUM ↔
      ¬(maxOf (fun d => d.temperature) w > 42 ∨ avgOf (fun d => d.temperature) w > 40) ∧
      (maxOf (fun d => d.temperature) w > 37 ∨ avgOf (fun d => d.temperature) w > 35)) ∧
    ((assessRisks w ct).heatwave = .LOW ↔
      ¬(maxOf (fun d => d.temperature) w > 42 ∨ avgOf (fun d => d.temperature) w > 40) ∧
      ¬(maxOf (fun d => d.temperature) w > 37 ∨ avgOf (fun d => d.temperature) w > 35)) ∧
    (maxOf (fun d => d.temperature) w = 43 → (assessRisks w ct).heatwave = .HIGH) := by
  have hth : riskThresholds ct = ⟨42, 37, 30, 20, 80, 70, 22, 16⟩ := by
    unfold riskThresholds
    dsimp only
    rw [htrop, htemp, harid]
    simp
  have hhw : (assessRisks w ct).heatwave =
      (if maxOf (fun d => d.temperature) w > 42 ∨
          avgOf (fun d => d.temperature) w > 40 then Risk.HIGH
       else if maxOf (fun d => d.temperature) w > 37 ∨
          avgOf (fun d => d.temperature) w > 35 then Risk.MEDIUM
       else Risk.LOW) := by
    unfold assessRisks
    rw [hth]
    norm_num
  rw [hhw]
  refine ⟨?_, ?_, ?_, ?_⟩
  · split_ifs with h1 h2 <;> simp_all
  · split_ifs with h1 h2 <;> simp_all
  · split_ifs with h1 h2 <;> simp_all
  · intro h43
    have h1 : maxOf (fun d => d.temperature) w > 42 ∨
        avgOf (fun d => d.temperature) w > 40 := by
      left; rw [h43]; norm_num
    rw [if_pos h1]

/-- A 7-day window whose maximum temperature is 43. -/
def c3Window : List ForecastDay :=
  [ ⟨0, 30, 40, 1005, 10⟩, ⟨1, 43, 40, 1005, 10⟩, ⟨2, 30, 40, 1005, 10⟩
  , ⟨3, 30, 40, 1005, 10⟩, ⟨4, 30, 40, 1005, 10⟩, ⟨5, 30, 40, 1005, 10⟩
  , ⟨6, 30, 40, 1005, 10⟩ ]

/-- Witness for C3: the concrete `"Semi-arid"` climate type with a concrete
window whose maximum temperature is 43 classifies as a HIGH heatwave. -/
theorem C3_arid_heatwave_ladder_witness :
    (assessRisks c3Window "Semi-arid").heatwave = .HIGH :=
  (C3_arid_heatwave_ladder c3Window "Semi-arid" (by decide) (by decide)
    (by decide) (by decide)).2.2.2 (by decide)

/-- C4: feature construction returns exactly 21 elements in the fixed order
of the source array; the seasonal terms are the sine/cosine of
`2π·day_of_year/365.25` and `4π·day_of_year/365.25`, the hour features are
the fixed midday constants (hour = 12, independent of date and location),
and the interaction terms are `avg_temp·avg_humidity/100` and
`avg_pressure/avg_temp` computed from the same climate baseline record used
for the other features. -/
theorem C4_feature_vector (sinq cosq : ℚ → ℚ) (piq : ℚ) (d : DateParts)
    (city_name : Option String) :
    (create_weather_features sinq cosq piq d city_name).length = 21 ∧
    ∀ s : String, city_name = some s → s ≠ "" →
      create_weather_features sinq cosq piq d city_name =
        [ (d.month : ℚ)
        , (d.day : ℚ)
        , (d.weekday : ℚ)
        , sinq (2 * piq * (d.dayOfYear : ℚ) / 365.25)
        , cosq (2 * piq * (d.dayOfYear : ℚ) / 365.25)
        , sinq (4 * piq * (d.dayOfYear : ℚ) / 365.25)
        , cosq (4 * piq * (d.dayOfYear : ℚ) / 365.25)
        , sinq (2 * piq * 12 / 24)
        , cosq (2 * piq * 12 / 24)
        , (get_city_climate_info s).avg_temp * (get_city_climate_info s).avg_humidity / 100
        , (get_city_climate_info s).avg_pressure / (get_city_climate_info s).avg_temp
        , (get_city_climate_info s).cloud_cover
        , (get_city_climate_info s).visibility
        , (get_city_climate_info s).wind_direction
        , (get_city_climate_info s).avg_temp
        , (get_city_climate_info s).avg_pressure
        , (get_city_climate_info s).wind_speed
        , (d.dayOfYear : ℚ)
        , 12
        , (get_city_climate_info s).latitude
        , (get_city_climate_info s).longitude ] := by
  constructor
  · cases city_name <;> rfl
  · intro s hs hne
    subst hs
    simp only [create_weather_features]
    rw [if_neg hne]

/-- Witness for C4 at a concrete date, city and trig instantiation. -/
theorem C4_feature_vector_witness :
    (create_weather_features (fun _ => 0) (fun _ => 1) 3 ⟨10, 12, 4, 285⟩
        (some "pune")).length = 21 ∧
    create_weather_features (fun _ => 0) (fun _ => 1) 3 ⟨10, 12, 4, 285⟩
        (some "pune") =
      [ 10, 12, 4, 0, 1, 0, 1, 0, 1
      , (get_city_climate_info "pune").avg_temp *
          (get_city_climate_info "pune").avg_humidity / 100
      , (get_city_climate_info "pune").avg_pressure /
          (get_city_climate_info "pune").avg_temp
      , (get_city_climate_info "pune").cloud_cover
      , (get_city_climate_info "pune").visibility
      , (get_city_climate_info "pune").wind_direction
      , (get_city_climate_info "pune").avg_temp
      , (get_city_climate_info "pune").avg_pressure
      , (get_city_climate_info "pune").wind_speed
      , 285, 12
      , (get_city_climate_info "pune").latitude
      , (get_city_climate_info "pune").longitude ] :=
  ⟨(C4_feature_vector (fun _ => 0) (fun _ => 1) 3 ⟨10, 12, 4, 285⟩
      (some "pune")).1
  , (C4_feature_vector (fun _ => 0) (fun _ => 1) 3 ⟨10, 12, 4, 285⟩
      (some "pune")).2 "pune" rfl (by decide)⟩

/-- C9: the model-based forecast is a deterministic function of the bundle,
the horizon, the date and the trigonometric primitives: its result does not
depend on the ambient process RNG (`np.random`), which `predict_weather_location`
and `create_weather_features` never consult, so two runs with the same inputs
produce identical output sequences. -/
theorem C9_model_forecast_deterministic {Info : Type}
    (md : ModelData Info RegQ ScalerQ) (days today : ℕ) (cal : ℕ → DateParts)
    (sinq cosq : ℚ → ℚ) (piq : ℚ) (rng1 rng2 : ℕ → ℚ) :
    predict_weather_location md days today cal sinq cosq piq rng1 =
      predict_weather_location md days today cal sinq cosq piq rng2 := rfl

/-- C5: for any horizon of `days ≥ 1`, the model-based path (whenever it
returns a sequence at all) and the synthetic fallback path both return
exactly `days` records whose date fields are the consecutive ascending
calendar days `today + i` for `i = 0 … days − 1`. -/
theorem C5_horizon_consecutive_dates {Info : Type}
    (md : ModelData Info RegQ ScalerQ) (city : String) (days today : ℕ)
    (cal : ℕ → DateParts) (sinq cosq : ℚ → ℚ) (piq : ℚ) (rng : ℕ → ℚ)
    (noise : NoiseDraws) (l : List ForecastDay)
    (_hdays : 1 ≤ days)
    (h : predict_weather_location md days today cal sinq cosq piq rng = some l) :
    (l.length = days ∧
      ∀ i, i < days → l[i]?.map ForecastDay.date = some (today + i)) ∧
    ((generate_realistic_weather_fallback city days today cal sinq piq
        noise).length = days ∧
      ∀ i, i < days →
        (generate_realistic_weather_fallback city days today cal sinq piq
          noise)[i]?.map ForecastDay.date = some (today + i)) := by
  constructor
  · unfold predict_weather_location at h
    split at h
    · exact absurd h (by simp)
    · have hl : l = (List.range days).map fun i =>
          predictDay md.models md.scalers md.city sinq cosq piq
            (cal (today + i)) (today + i) := by
        injection h with h2
        exact h2.symm
      subst hl
      constructor
      · simp
      · intro i hi
        simp [List.getElem?_map, List.getElem?_range, hi, predictDay]
  · unfold generate_realistic_weather_fallback
    constructor
    · simp
    · intro i hi
      simp [List.getElem?_map, List.getElem?_range, hi, genDay]

/-- A one-target bundle used by the forecast witnesses: a constant regressor
and an identity scaler for every target. -/
def wBundle : ModelData Unit RegQ ScalerQ :=
  { models := fun _ => some (fun _ => 50)
  , scalers := fun _ => some (fun row => row)
  , model_info := ()
  , city := "mumbai" }

/-- Calendar fixture for the witnesses. -/
def wCal : ℕ → DateParts := fun n => ⟨1, 1, 1, n + 1⟩

/-- Noise fixture for the witnesses. -/
def wNoise : NoiseDraws := ⟨fun _ => 0, fun _ => 0, fun _ => 0, fun _ => 0⟩

/-- Empty-record fixture. -/
def wDay : ForecastDay := ⟨0, 0, 0, 0, 0⟩

/-- Witness for C5 at a concrete bundle, city and horizon 2. -/
theorem C5_horizon_consecutive_dates_witness :
    (((List.range 2).map fun i =>
        predictDay wBundle.models wBundle.scalers wBundle.city (fun _ => 0)
          (fun _ => 1) 3 (wCal (7 + i)) (7 + i)).length = 2 ∧
      ∀ i, i < 2 → (((List.range 2).map fun i =>
        predictDay wBundle.models wBundle.scalers wBundle.city (fun _ => 0)
          (fun _ => 1) 3 (wCal (7 + i)) (7 + i))[i]?.map ForecastDay.date =
          some (7 + i))) ∧
    ((generate_realistic_weather_fallback "mumbai" 2 7 wCal (fun _ => 0) 3
        wNoise).length = 2 ∧
      ∀ i, i < 2 →
        (generate_realistic_weather_fallback "mumbai" 2 7 wCal (fun _ => 0) 3
          wNoise)[i]?.map ForecastDay.date = some (7 + i)) :=
  C5_horizon_consecutive_dates wBundle "mumbai" 2 7 wCal (fun _ => 0)
    (fun _ => 1) 3 (fun _ => 0) wNoise _ (by decide) rfl

/-- C6: every record of model-based forecast output is the per-day
`predictDay` record, in which each field is written from the target's
scale-then-predict result exactly when the bundle holds **both** that
target's regressor and scaler — humidity clamped into [0, 100] and wind
speed clamped to ≥ 0 before the one-decimal rounding, temperature and
pressure rounded unclamped — and is exactly 0 when either artifact is
absent. -/
theorem C6_field_postprocessing {Info : Type}
    (md : ModelData Info RegQ ScalerQ) (days today : ℕ) (cal : ℕ → DateParts)
    (sinq cosq : ℚ → ℚ) (piq : ℚ) (rng : ℕ → ℚ) (l : List ForecastDay)
    (h : predict_weather_location md days today cal sinq cosq piq rng = some l)
    (i : ℕ) (hi : i < days) :
    l[i]? = some (predictDay md.models md.scalers md.city sinq cosq piq
      (cal (today + i)) (today + i)) ∧
    (∀ r s, md.models .temperature = some r → md.scalers .temperature = some s →
      (predictDay md.models md.scalers md.city sinq cosq piq
        (cal (today + i)) (today + i)).temperature =
        round1 (r (s (create_weather_features sinq cosq piq (cal (today + i))
          (some md.city))))) ∧
    ((md.models .temperature = none ∨ md.scalers .temperature = none) →
      (predictDay md.models md.scalers md.city sinq cosq piq
        (cal (today + i)) (today + i)).temperature = 0) ∧
    (∀ r s, md.models .humidity = some r → md.scalers .humidity = some s →
      (predictDay md.models md.scalers md.city sinq cosq piq
        (cal (today + i)) (today + i)).humidity =
        round1 (max 0 (min 100 (r (s (create_weather_features sinq cosq piq
          (cal (today + i)) (some md.city))))))) ∧
    ((md.models .humidity = none ∨ md.scalers .humidity = none) →
      (predictDay md.models md.scalers md.city sinq cosq piq
        (cal (today + i)) (today + i)).humidity = 0) ∧
    (∀ r s, md.models .pressure = some r → md.scalers .pressure = some s →
      (predictDay md.models md.scalers md.city sinq cosq piq
        (cal (today + i)) (today + i)).pressure =
        round1 (r (s (create_weather_features sinq cosq piq (cal (today + i))
          (some md.city))))) ∧
    ((md.models .pressure = none ∨ md.scalers .pressure = none) →
      (predictDay md.models md.scalers md.city sinq cosq piq
        (cal (today + i)) (today + i)).pressure = 0) ∧
    (∀ r s, md.models .wind_speed = some r → md.scalers .wind_speed = some s →
      (predictDay md.models md.scalers md.city sinq cosq piq
        (cal (today + i)) (today + i)).wind_speed =
        round1 (max 0 (r (s (create_weather_features sinq cosq piq
          (cal (today + i)) (some md.city)))))) ∧
    ((md.models .wind_speed = none ∨ md.scalers .wind_speed = none) →
      (predictDay md.models md.scalers md.city sinq cosq piq
        (cal (today + i)) (today + i)).wind_speed = 0) := by
  refine ⟨?_, ?_, ?_, ?_, ?_, ?_, ?_, ?_, ?_⟩
  · unfold predict_weather_location at h
    split at h
    · exact absurd h (by simp)
    · have hl : l = (List.range days).map fun j =>
          predictDay md.models md.scalers md.city sinq cosq piq
            (cal (today + j)) (today + j) := by
        injection h with h2
        exact h2.symm
      subst hl
      simp [List.getElem?_map, List.getElem?_range, hi]
  · intro r s hr hs
    simp only [predictDay]
    rw [hr, hs]
  · intro hn
    rcases hn with hn | hn
    · simp only [predictDay]
      rw [hn]
    · cases hm : md.models .temperature <;>
        · simp only [predictDay]
          rw [hm, hn]
  · intro r s hr hs
    simp only [predictDay]
    rw [hr, hs]
  · intro hn
    rcases hn with hn | hn
    · simp only [predictDay]
      rw [hn]
    · cases hm : md.models .humidity <;>
        · simp only [predictDay]
          rw [hm, hn]
  · intro r s hr hs
    simp only [predictDay]
    rw [hr, hs]
  · intro hn
    rcases hn with hn | hn
    · simp only [predictDay]
      rw [hn]
    · cases hm : md.models .pressure <;>
        · simp only [predictDay]
          rw [hm, hn]
  · intro r s hr hs
    simp only [predictDay]
    rw [hr, hs]
  · intro hn
    rcases hn with hn | hn
    · simp only [predictDay]
      rw [hn]
    · cases hm : md.models .wind_speed <;>
        · simp only [predictDay]
          rw [hm, hn]

/-- A partial bundle: temperature and humidity carry regressor + scaler,
pressure and wind speed carry neither. -/
def c6Bundle : ModelData Unit RegQ ScalerQ :=
  { models := fun t => match t with
      | .temperature => some (fun _ => 31)
      | .humidity => some (fun _ => 150)
      | _ => none
  , scalers := fun t => match t with
      | .temperature => some (fun row => row)
      | .humidity => some (fun row => row)
      | _ => none
  , model_info := ()
  , city := "pune" }

/-- Witness for C6: on the partial bundle, a present target's field is the
rounded (and, for humidity, clamped) prediction and an absent target's field
is 0. -/
theorem C6_field_postprocessing_witness :
    (predictDay c6Bundle.models c6Bundle.scalers c6Bundle.city (fun _ => 0)
        (fun _ => 1) 3 (wCal (5 + 0)) (5 + 0)).temperature = round1 31 ∧
    (predictDay c6Bundle.models c6Bundle.scalers c6Bundle.city (fun _ => 0)
        (fun _ => 1) 3 (wCal (5 + 0)) (5 + 0)).humidity =
      round1 (max 0 (min 100 150)) ∧
    (predictDay c6Bundle.models c6Bundle.scalers c6Bundle.city (fun _ => 0)
        (fun _ => 1) 3 (wCal (5 + 0)) (5 + 0)).pressure = 0 :=
  ⟨(C6_field_postprocessing c6Bundle 1 5 wCal (fun _ => 0) (fun _ => 1) 3
      (fun _ => 0) _ rfl 0 (by decide)).2.1 (fun _ => 31) (fun row => row)
      rfl rfl
  , (C6_field_postprocessing c6Bundle 1 5 wCal (fun _ => 0) (fun _ => 1) 3
      (fun _ => 0) _ rfl 0 (by decide)).2.2.2.1 (fun _ => 150) (fun row => row)
      rfl rfl
  , (C6_field_postprocessing c6Bundle 1 5 wCal (fun _ => 0) (fun _ => 1) 3
      (fun _ => 0) _ rfl 0 (by decide)).2.2.2.2.2.2.1 (Or.inl rfl)⟩

/-- For a tropical climate record, one generated day's humidity is at least
60: the floor of 60 is applied after the noise, the global clip into
[20, 95] keeps any value that is at least 60 at least 60, and the
one-decimal rounding preserves the bound. -/
theorem genDay_tropical_humidity (ci : ClimateInfo) (sinq : ℚ → ℚ) (piq : ℚ)
    (d : DateParts) (idx : ℕ) (nt nh np nw : ℚ)
    (htrop : strContains (strLower ci.climate_type) "tropical" = true) :
    (60 : ℚ) ≤ (genDay ci sinq piq d idx nt nh np nw).humidity := by
  unfold genDay
  dsimp only
  rw [htrop]
  simp only [if_true]
  have hc : (60 : ℚ) ≤ clip (max (ci.avg_humidity + (-10) *
      sinq (2 * piq * (d.dayOfYear : ℚ) / 365.25) + nh) 60) 20 95 :=
    le_clip _ _ _ _ (le_max_right _ _) (by norm_num)
  have := intCast_le_round1 60 _ hc
  exact_mod_cast this

/-- C7: for every location whose climate classification contains
`"tropical"` and every horizon, every humidity value produced by the
synthetic generator is ≥ 60, for all values of the random noise draws. -/
theorem C7_tropical_humidity_floor (city : String)
    (htrop : strContains
      (strLower (get_city_climate_info city).climate_type) "tropical" = true)
    (days today : ℕ) (cal : ℕ → DateParts) (sinq : ℚ → ℚ) (piq : ℚ)
    (noise : NoiseDraws) :
    ∀ rec ∈ generate_realistic_weather_fallback city days today cal sinq piq
      noise, (60 : ℚ) ≤ rec.humidity := by
  intro rec hrec
  unfold generate_realistic_weather_fallback at hrec
  rw [List.mem_map] at hrec
  obtain ⟨i, _, rfl⟩ := hrec
  exact genDay_tropical_humidity _ _ _ _ _ _ _ _ _ htrop

/-- The default head of a nonempty list is a member. -/
theorem headD_mem_of_ne_nil {α : Type} (l : List α) (d : α) (h : l ≠ []) :
    l.headD d ∈ l := by
  cases l with
  | nil => exact absurd rfl h
  | cons a t => simp

/-- Witness for C7: the first generated day for `"mumbai"`
(climate type `"Tropical Wet and Dry"`) has humidity ≥ 60. -/
theorem C7_tropical_humidity_floor_witness :
    (60 : ℚ) ≤ ((generate_realistic_weather_fallback "mumbai" 1 0 wCal
      (fun _ => 0) 3 wNoise).headD wDay).humidity :=
  C7_tropical_humidity_floor "mumbai" (by decide) 1 0 wCal (fun _ => 0) 3
    wNoise _ (headD_mem_of_ne_nil _ wDay (by decide))

/-- For a tropical climate record, one generated day's temperature lies in
[22, 38]: the tropical clip into [22, 38] is applied after the noise, the
global clip into [15, 45] leaves values in [22, 38] unchanged, and the
one-decimal rounding preserves both bounds. -/
theorem genDay_tropical_temp_bounds (ci : ClimateInfo) (sinq : ℚ → ℚ)
    (piq : ℚ) (d : DateParts) (idx : ℕ) (nt nh np nw : ℚ)
    (htrop : strContains (strLower ci.climate_type) "tropical" = true) :
    (22 : ℚ) ≤ (genDay ci sinq piq d idx nt nh np nw).temperature ∧
      (genDay ci sinq piq d idx nt nh np nw).temperature ≤ 38 := by
  unfold genDay
  dsimp only
  rw [htrop]
  simp only [if_true]
  set t0 := ci.avg_temp + 8 * sinq (2 * piq * (d.dayOfYear : ℚ) / 365.25) + nt
    with ht0
  have h1 : (22 : ℚ) ≤ clip t0 22 38 := clip_ge_lo _ _ _ (by norm_num)
  have h2 : clip t0 22 38 ≤ 38 := clip_le _ _ _
  have hlo : (22 : ℚ) ≤ clip (clip t0 22 38) 15 45 :=
    le_clip _ _ _ _ h1 (by norm_num)
  have hhi : clip (clip t0 22 38) 15 45 ≤ 38 := by
    unfold clip
    calc min (max (min (max t0 22) 38) 15) 45
        ≤ max (min (max t0 22) 38) 15 := min_le_left _ _
      _ = min (max t0 22) 38 :=
          max_eq_left (le_trans (by norm_num : (15 : ℚ) ≤ 22) h1)
      _ ≤ 38 := min_le_right _ _
  constructor
  · have := intCast_le_round1 22 _ hlo
    exact_mod_cast this
  · have := round1_le_intCast 38 _ hhi
    exact_mod_cast this

/-- C10: a location key absent from the climate table resolves to the
fallback profile, whose climate type is `"Tropical Monsoon"`; consequently
an unrecognized location is processed with the tropical risk-threshold table
(heatwave 38/33, drought 60/50, flood 90/80, storm 25/18) — never the
neutral default table — and with the tropical synthetic clamps (humidity
floor 60, temperature clipped into [22, 38]). -/
theorem C10_unknown_location_tropical_default (city : String)
    (hmem : city ∉ climate_data.map Prod.fst) :
    get_city_climate_info city = climateDefault ∧
    riskThresholds (get_city_climate_info city).climate_type =
      ⟨38, 33, 60, 50, 90, 80, 25, 18⟩ ∧
    riskThresholds (get_city_climate_info city).climate_type ≠
      ⟨40, 35, 40, 30, 85, 75, 20, 15⟩ ∧
    ∀ (days today : ℕ) (cal : ℕ → DateParts) (sinq : ℚ → ℚ) (piq : ℚ)
      (noise : NoiseDraws),
      ∀ rec ∈ generate_realistic_weather_fallback city days today cal sinq
        piq noise,
        (60 : ℚ) ≤ rec.humidity ∧ (22 : ℚ) ≤ rec.temperature ∧
          rec.temperature ≤ 38 := by
  have hfind : climate_data.find? (fun p => p.1 == city) = none := by
    rw [List.find?_eq_none]
    intro p hp
    simp only [beq_iff_eq]
    intro hcontra
    exact hmem (hcontra ▸ List.mem_map_of_mem Prod.fst hp)
  have hget : get_city_climate_info city = climateDefault := by
    unfold get_city_climate_info
    rw [hfind]
  refine ⟨hget, ?_, ?_, ?_⟩
  · rw [hget]; decide
  · rw [hget]; decide
  · intro days today cal sinq piq noise rec hrec
    unfold generate_realistic_weather_fallback at hrec
    rw [hget] at hrec
    rw [List.mem_map] at hrec
    obtain ⟨i, _, rfl⟩ := hrec
    exact ⟨genDay_tropical_humidity _ _ _ _ _ _ _ _ _ (by decide)
      , (genDay_tropical_temp_bounds _ _ _ _ _ _ _ _ _ (by decide)).1
      , (genDay_tropical_temp_bounds _ _ _ _ _ _ _ _ _ (by decide)).2⟩

/-- Witness for C10 at the unknown key `"atlantis"`. -/
theorem C10_unknown_location_tropical_default_witness :
    get_city_climate_info "atlantis" = climateDefault ∧
    riskThresholds (get_city_climate_info "atlantis").climate_type =
      ⟨38, 33, 60, 50, 90, 80, 25, 18⟩ ∧
    (60 : ℚ) ≤ ((generate_realistic_weather_fallback "atlantis" 1 0 wCal
      (fun _ => 0) 3 wNoise).headD wDay).humidity ∧
    ((generate_realistic_weather_fallback "atlantis" 1 0 wCal
      (fun _ => 0) 3 wNoise).headD wDay).temperature ≤ 38 :=
  ⟨(C10_unknown_location_tropical_default "atlantis" (by decide)).1
  , (C10_unknown_location_tropical_default "atlantis" (by decide)).2.1
  , ((C10_unknown_location_tropical_default "atlantis" (by decide)).2.2.2
      1 0 wCal (fun _ => 0) 3 wNoise _
      (headD_mem_of_ne_nil _ wDay (by decide))).1
  , ((C10_unknown_location_tropical_default "atlantis" (by decide)).2.2.2
      1 0 wCal (fun _ => 0) 3 wNoise _
      (headD_mem_of_ne_nil _ wDay (by decide))).2.2⟩
